import Mathlib

/-!
Shallow embedding of the resource lifecycle manager in
`src/PuppetManager.ts` (class `PuppetManager`), together with the two
constants modules `src/utils/constants.ts` and `src/utils/constants.util.ts`.

Modelling conventions:
* The manager state mirrors the three parallel JS arrays
  `browsers : (Browser | null)[]`, `timeToLive : number[]`,
  `timerId : setInterval-handle[]`.  JS arrays are sparse and extensible by
  assignment, so each array is embedded as a total function `Nat → _`
  together with the shared length `len` of `this.browsers`
  (`timeToLive`/`timerId` are only ever written at indices that are in
  range for `browsers`).  A slot `i` with `browsers i = false` is a `null`
  (or out-of-range) entry; `timerActive i = true` means `timerId[i]` holds
  an interval that has not been cleared.
* The underlying Puppeteer browser is external: launching always yielding a
  browser, `browser.connected`, and `newPage` success/failure are inputs to
  the operations that consult them.
* Each JS method that can `throw` is embedded as a function returning the
  post-state paired with `Option PMError` (`none` = normal return); a JS
  method that mutates and then throws returns the mutated state together
  with the error.
* The body of each `setInterval` callback is embedded as a step function;
  a cleared interval (`timerActive = false`) no longer fires, which the
  step function reflects by acting as the identity.
-/

namespace Constants

/-- Embedding of `src/utils/constants.ts` line 1 (the module imported by
`src/PuppetManager.ts` via `from './utils/constants'`). -/
def DEFAULT_TTL_SECONDS : Int := 84

end Constants

namespace ConstantsUtil

/-- Embedding of `src/utils/constants.util.ts` line 4 (a second constants
module present in the repository; `PuppetManager.ts` does not import it). -/
def DEFAULT_TTL_SECONDS : Int := 60

end ConstantsUtil

namespace PuppetManager

/-- Pointwise update of an embedded JS array (assignment `a[i] = v`). -/
def upd {α : Type} (f : Nat → α) (i : Nat) (v : α) : Nat → α :=
  fun j => if j = i then v else f j

/-- State of a `PuppetManager` instance: the three parallel arrays
`browsers`, `timeToLive`, `timerId` (see module docstring). -/
structure ManagerState where
  len : Nat
  browsers : Nat → Bool
  timeToLive : Nat → Int
  timerActive : Nat → Bool

/-- Constructor options; only `defaultTimeout` is lifecycle-relevant
(`browserOptions` is passed through to the external launcher untouched). -/
structure PuppetManagerOptions where
  defaultTimeout : Option Int

/-- Errors thrown by the manager's methods. -/
inductive PMError
  | invalidId
  | disconnected
  | pageFailed
deriving DecidableEq

/-- Mutating steps performed by the teardown paths, in program order:
`cancelTimer` = `clearInterval(this.timerId[bid])`,
`releaseResource` = `await this.browsers[bid]?.close()`,
`removeHandle` = `this.browsers[bid] = null`. -/
inductive MutStep
  | cancelTimer
  | releaseResource
  | removeHandle
deriving DecidableEq

/-- The fresh state `new PuppetManager(options)` starts from: all three
arrays empty. -/
def emptyState : ManagerState :=
  { len := 0, browsers := fun _ => false, timeToLive := fun _ => 0,
    timerActive := fun _ => false }

/-- Embedding of `isValidBrowserId` (PuppetManager.ts lines 162-164):
`bid >= 0 && bid < this.browsers.length && this.browsers[bid] !== null`
(the `bid >= 0` conjunct is carried by the `Nat` index type). -/
def isValidBrowserId (s : ManagerState) (bid : Nat) : Bool :=
  decide (bid < s.len) && s.browsers bid

/-- Embedding of `handleBrowserTimeout` (lines 166-173): clear the
interval, then, if the slot still holds a browser, close it and null the
slot. -/
def handleBrowserTimeout (s : ManagerState) (bid : Nat) : ManagerState :=
  let s1 : ManagerState := { s with timerActive := upd s.timerActive bid false }
  if s1.browsers bid then { s1 with browsers := upd s1.browsers bid false } else s1

/-- Mutating steps of `handleBrowserTimeout` in program order:
`clearInterval` first (line 167), then close + null when the slot is
occupied (lines 168-172). -/
def handleBrowserTimeoutEvents (s : ManagerState) (bid : Nat) : List MutStep :=
  MutStep.cancelTimer ::
    (if s.browsers bid then [MutStep.releaseResource, MutStep.removeHandle] else [])

/-- Embedding of the closure installed by `createTimeoutCloser`
(lines 137-154): reject negative seconds or an invalid id silently,
otherwise clear the previous interval, set `timeToLive[bid] = seconds`,
and start a fresh countdown interval. -/
def timeoutCloser (s : ManagerState) (seconds : Int) (bid : Nat) : ManagerState :=
  if decide (seconds < 0) || !(isValidBrowserId s bid) then s
  else
    { s with timeToLive := upd s.timeToLive bid seconds,
             timerActive := upd s.timerActive bid true }

/-- Embedding of one firing of the countdown interval body installed by
`createTimeoutCloser` (lines 144-152): when `timeToLive[bid] <= 0`, run
`handleBrowserTimeout`; otherwise log the warning (state-neutral) and
decrement `timeToLive[bid]`.  A cleared interval no longer fires, hence
the identity when `timerActive bid = false`. -/
def tick (s : ManagerState) (bid : Nat) : ManagerState :=
  if s.timerActive bid then
    if s.timeToLive bid ≤ 0 then handleBrowserTimeout s bid
    else { s with timeToLive := upd s.timeToLive bid (s.timeToLive bid - 1) }
  else s

/-- Iterated countdown ticks for one browser id. -/
def tickIter (s : ManagerState) (bid : Nat) : Nat → ManagerState
  | 0 => s
  | k + 1 => tick (tickIter s bid k) bid

/-- Embedding of the condition in `logTimeoutWarning` (lines 175-180):
`console.warn` fires iff `ttl % 10 === 0 || ttl % 10 === 5 || ttl < 4`,
where `ttl` is the value of `timeToLive[bid]` read before the decrement. -/
def logTimeoutWarning (ttl : Int) : Bool :=
  (ttl % 10 == 0) || (ttl % 10 == 5) || decide (ttl < 4)

/-- Embedding of `refreshTTL` (lines 82-85):
`const ttl = timeout ?? this.options.defaultTimeout ?? DEFAULT_TTL_SECONDS`
followed by `this.timeoutCloser(ttl, bid)`.  The body performs no id
validation and contains no `throw`; the error component is therefore
always `none`. -/
def refreshTTL (cfg : PuppetManagerOptions) (s : ManagerState) (bid : Nat)
    (timeout : Option Int) : ManagerState × Option PMError :=
  (timeoutCloser s (timeout.getD (cfg.defaultTimeout.getD Constants.DEFAULT_TTL_SECONDS)) bid, none)

/-- Embedding of `createBrowser` (lines 26-38) on the success path of the
external launch: push the new browser, let `bid = this.browsers.length - 1`,
call `this.refreshTTL(bid)`, and return `bid`. -/
def createBrowser (cfg : PuppetManagerOptions) (s : ManagerState) :
    ManagerState × Nat :=
  let s1 : ManagerState :=
    { s with len := s.len + 1, browsers := upd s.browsers s.len true }
  ((refreshTTL cfg s1 s.len none).1, s.len)

/-- Embedding of `createPage` (lines 48-75).  `connected` is the external
browser's `browser.connected` observation; `pageOk` is whether the
external `browser.newPage()` call succeeds.  An invalid id throws with no
mutation; a disconnected browser has its slot nulled (line 59) before the
throw (line 60); otherwise the TTL is refreshed at the default (line 63)
and a `newPage` failure surfaces after that refresh. -/
def createPage (cfg : PuppetManagerOptions) (s : ManagerState) (bid : Nat)
    (connected : Bool) (pageOk : Bool) : ManagerState × Option PMError :=
  if !(isValidBrowserId s bid) then (s, some PMError.invalidId)
  else if !connected then
    ({ s with browsers := upd s.browsers bid false }, some PMError.disconnected)
  else
    let s2 := (refreshTTL cfg s bid none).1
    if pageOk then (s2, none) else (s2, some PMError.pageFailed)

/-- Embedding of `destroyBrowser` (lines 111-116): validate (throw on an
invalid id), `await close()`, null the slot, then `clearInterval`. -/
def destroyBrowser (s : ManagerState) (bid : Nat) : ManagerState × Option PMError :=
  if !(isValidBrowserId s bid) then (s, some PMError.invalidId)
  else
    ({ s with browsers := upd s.browsers bid false,
              timerActive := upd s.timerActive bid false }, none)

/-- Mutating steps of `destroyBrowser` in program order: close (line 113),
null the slot (line 114), and only then `clearInterval` (line 115); an
invalid id throws before any mutation. -/
def destroyBrowserEvents (s : ManagerState) (bid : Nat) : List MutStep :=
  if isValidBrowserId s bid then
    [MutStep.releaseResource, MutStep.removeHandle, MutStep.cancelTimer]
  else []

/-- Embedding of `cleanup` (lines 121-135): close every live browser,
clear every timer, and reset all three arrays to `[]`. -/
def cleanup (_s : ManagerState) : ManagerState := emptyState

/-- Embedding of `subscribeTTL` (lines 93-105): validate (throw on an
invalid id, starting nothing), otherwise start a subscription interval of
its own.  The result is the (unchanged) manager state, the thrown error if
any, and whether a subscription interval is now running. -/
def subscribeTTL (s : ManagerState) (bid : Nat) :
    ManagerState × Option PMError × Bool :=
  if isValidBrowserId s bid then (s, none, true)
  else (s, some PMError.invalidId, false)

/-- Embedding of one firing of the subscription interval body
(lines 96-102): if the slot still holds a browser, invoke the callback
with `this.timeToLive[bid]`; otherwise clear the subscription interval.
Returns the (unchanged) manager state, whether the subscription is still
running, and the observation passed to the callback, if any. -/
def subStep (m : ManagerState) (bid : Nat) (active : Bool) :
    ManagerState × Bool × Option Int :=
  if active then
    if m.browsers bid then (m, true, some (m.timeToLive bid))
    else (m, false, none)
  else (m, false, none)

/-- Embedding of the unsubscribe closure returned by `subscribeTTL`
(line 104): it clears the subscription's own interval and touches nothing
else. -/
def unsubscribeStep (m : ManagerState) (_active : Bool) : ManagerState × Bool :=
  (m, false)

/-- A manager together with one TTL subscription (id being observed and
whether the subscription interval is still running). -/
structure World where
  mgr : ManagerState
  subBid : Nat
  subActive : Bool

/-- One scheduler round for the subscribed id: the countdown interval
(started at creation, hence scheduled first) fires, then the subscription
interval fires.  Returns the new world and the observation delivered to
the callback in this round, if any. -/
def schedRound (w : World) : World × Option Int :=
  let m1 := tick w.mgr w.subBid
  let r := subStep m1 w.subBid w.subActive
  ({ mgr := r.1, subBid := w.subBid, subActive := r.2.1 }, r.2.2)

/-- Observations delivered to the subscription callback over `n` scheduler
rounds, in order. -/
def runObs (w : World) : Nat → List Int
  | 0 => []
  | n + 1 => ((schedRound w).2).toList ++ runObs (schedRound w).1 n

/-- The full sequence of observations a subscription sees while a resource
with remaining TTL `T` runs down to teardown: `[T-1, T-2, ..., 0]`. -/
def countdownFrom : Nat → List Int
  | 0 => []
  | T + 1 => (T : Int) :: countdownFrom T

/-- Operations of the public interface (plus a countdown-tick event), used
to quantify over call sequences.  `page` carries the external `connected`
and `newPage`-success observations; `refreshOp` carries the optional
timeout argument. -/
inductive Op
  | create
  | destroy (bid : Nat)
  | refreshOp (bid : Nat) (t : Option Int)
  | page (bid : Nat) (connected : Bool) (pageOk : Bool)
  | tickOp (bid : Nat)
  | cleanupOp
deriving DecidableEq

/-- State transition of one operation (error results discarded: a thrown
error leaves exactly the state the embedding pairs with it). -/
def exec (cfg : PuppetManagerOptions) (s : ManagerState) : Op → ManagerState
  | Op.create => (createBrowser cfg s).1
  | Op.destroy bid => (destroyBrowser s bid).1
  | Op.refreshOp bid t => (refreshTTL cfg s bid t).1
  | Op.page bid c ok => (createPage cfg s bid c ok).1
  | Op.tickOp bid => tick s bid
  | Op.cleanupOp => cleanup s

/-- Run a sequence of operations. -/
def execAll (cfg : PuppetManagerOptions) (s : ManagerState) : List Op → ManagerState
  | [] => s
  | op :: ops => execAll cfg (exec cfg s op) ops

/-- Ids returned by the `createBrowser` calls of a sequence, in order
(`createBrowser` returns `this.browsers.length - 1` after the push, i.e.
the pre-push length). -/
def createdIds (cfg : PuppetManagerOptions) (s : ManagerState) : List Op → List Nat
  | [] => []
  | op :: ops =>
    (if op = Op.create then [s.len] else []) ++ createdIds cfg (exec cfg s op) ops

/-- Concrete one-browser state: a single live browser at id 0 with 30
seconds remaining and its countdown timer running. -/
def exOne : ManagerState :=
  { len := 1, browsers := fun _ => true, timeToLive := fun _ => 30,
    timerActive := fun _ => true }

/-- Concrete one-browser state with 2 seconds remaining. -/
def exTwo : ManagerState :=
  { len := 1, browsers := fun _ => true, timeToLive := fun _ => 2,
    timerActive := fun _ => true }

/-- Concrete world: the browser of `exTwo` with a live subscription on
id 0. -/
def exWorld : World :=
  { mgr := exTwo, subBid := 0, subActive := true }

/-- Options with no `defaultTimeout` configured. -/
def cfgNone : PuppetManagerOptions := { defaultTimeout := none }

end PuppetManager

namespace PuppetManager

@[simp]
theorem upd_same {α : Type} (f : Nat → α) (i : Nat) (v : α) : upd f i v i = v := by
  simp [upd]

theorem upd_other {α : Type} (f : Nat → α) (i j : Nat) (v : α) (h : j ≠ i) :
    upd f i v j = f j := by
  simp [upd, h]

theorem isValid_iff (s : ManagerState) (bid : Nat) :
    isValidBrowserId s bid = true ↔ bid < s.len ∧ s.browsers bid = true := by
  simp [isValidBrowserId]

theorem timeoutCloser_of_valid (s : ManagerState) (sec : Int) (bid : Nat)
    (hv : isValidBrowserId s bid = true) (hsec : 0 ≤ sec) :
    timeoutCloser s sec bid =
      { s with timeToLive := upd s.timeToLive bid sec,
               timerActive := upd s.timerActive bid true } := by
  have h1 : decide (sec < 0) = false := by simp; omega
  simp [timeoutCloser, h1, hv]

theorem timeoutCloser_of_invalid (s : ManagerState) (sec : Int) (bid : Nat)
    (hv : isValidBrowserId s bid = false) :
    timeoutCloser s sec bid = s := by
  simp [timeoutCloser, hv]

end PuppetManager

open PuppetManager

/-- C2: for every live id and non-negative seconds value, `refreshTTL`
sets the remaining TTL to exactly that value (replacing, not adding to,
whatever remained) and restarts the countdown timer; an immediate TTL
observation yields exactly the requested value. -/
theorem refreshTTL_replaces_ttl (cfg : PuppetManagerOptions) (s : ManagerState)
    (bid : Nat) (sec : Int) (hv : isValidBrowserId s bid = true) (hsec : 0 ≤ sec) :
    ((refreshTTL cfg s bid (some sec)).1).timeToLive bid = sec ∧
    ((refreshTTL cfg s bid (some sec)).1).timerActive bid = true := by
  simp [refreshTTL, Option.getD, timeoutCloser_of_valid s sec bid hv hsec]

/-- Witness for C2: on the concrete one-browser state with 30 seconds
remaining, `refreshTTL` with 5 seconds yields an observation of exactly 5. -/
theorem refreshTTL_replaces_ttl_witness :
    ((refreshTTL cfgNone exOne 0 (some 5)).1).timeToLive 0 = 5 ∧
    ((refreshTTL cfgNone exOne 0 (some 5)).1).timerActive 0 = true :=
  refreshTTL_replaces_ttl cfgNone exOne 0 5 (by decide) (by decide)

/-- C5 counterexample: on the empty manager, id 0 is not live, yet
`refreshTTL` raises no error and leaves the state unchanged — it does not
fail with an `InvalidIdError` as the claim states. -/
theorem refreshTTL_invalid_silent_cx :
    isValidBrowserId emptyState 0 = false ∧
    refreshTTL cfgNone emptyState 0 (some 5) = (emptyState, none) :=
  ⟨rfl, rfl⟩

/-- C5 (amended): for every id that is not live, `refreshTTL` is a silent
no-op: it raises no error and leaves the manager state unchanged (the
guard in `createTimeoutCloser` returns early and `refreshTTL` never
validates the id). -/
theorem refreshTTL_invalid_noop (cfg : PuppetManagerOptions) (s : ManagerState)
    (bid : Nat) (t : Option Int) (hv : isValidBrowserId s bid = false) :
    refreshTTL cfg s bid t = (s, none) := by
  simp [refreshTTL, timeoutCloser_of_invalid _ _ _ hv]

/-- Witness for C5 (amended): applying the theorem to the empty manager at
id 0. -/
theorem refreshTTL_invalid_noop_witness :
    refreshTTL cfgNone emptyState 0 (some 5) = (emptyState, none) :=
  refreshTTL_invalid_noop cfgNone emptyState 0 (some 5) (by decide)

/-- C6 counterexample: with no `defaultTimeout` configured, `refreshTTL`
with no explicit seconds sets the remaining TTL of a live id to 84, not to
the documented 60 (`PuppetManager.ts` imports `DEFAULT_TTL_SECONDS` from
`utils/constants.ts`, which defines 84; the 60 constant lives in the
unimported `utils/constants.util.ts`). -/
theorem refreshTTL_default_84_cx :
    ((refreshTTL cfgNone exOne 0 none).1).timeToLive 0 = 84 ∧
    Constants.DEFAULT_TTL_SECONDS = 84 ∧
    ConstantsUtil.DEFAULT_TTL_SECONDS = 60 ∧
    ((refreshTTL cfgNone exOne 0 none).1).timeToLive 0 ≠ 60 := by
  refine ⟨?_, rfl, rfl, ?_⟩ <;> decide

/-- C6 (amended): when the manager is constructed without a
`defaultTimeout` option, `refreshTTL` on a live id with no explicit
seconds argument sets the remaining TTL to `DEFAULT_TTL_SECONDS` from the
imported constants module, whose value is 84 (not the 60 documented in
`constants.util.ts`). -/
theorem refreshTTL_default_value (cfg : PuppetManagerOptions) (s : ManagerState)
    (bid : Nat) (hc : cfg.defaultTimeout = none)
    (hv : isValidBrowserId s bid = true) :
    ((refreshTTL cfg s bid none).1).timeToLive bid = Constants.DEFAULT_TTL_SECONDS ∧
    Constants.DEFAULT_TTL_SECONDS = 84 := by
  refine ⟨?_, rfl⟩
  have h := timeoutCloser_of_valid s Constants.DEFAULT_TTL_SECONDS bid hv (by decide)
  simp [refreshTTL, hc, Option.getD, h]

/-- Witness for C6 (amended): applying the theorem to the concrete
one-browser state. -/
theorem refreshTTL_default_value_witness :
    ((refreshTTL cfgNone exOne 0 none).1).timeToLive 0 = Constants.DEFAULT_TTL_SECONDS ∧
    Constants.DEFAULT_TTL_SECONDS = 84 :=
  refreshTTL_default_value cfgNone exOne 0 rfl (by decide)

/-- C9: on every countdown tick where the remaining TTL is strictly
positive, the TTL is decremented by exactly one, and the warning record is
emitted if and only if the TTL observed before the decrement is a multiple
of 10, a multiple of 5, or below 4. -/
theorem tick_warning_and_decrement (s : ManagerState) (bid : Nat)
    (ht : s.timerActive bid = true) (hpos : 0 < s.timeToLive bid) :
    (tick s bid).timeToLive bid = s.timeToLive bid - 1 ∧
    (logTimeoutWarning (s.timeToLive bid) = true ↔
      ((10 : Int) ∣ s.timeToLive bid ∨ (5 : Int) ∣ s.timeToLive bid ∨
        s.timeToLive bid < 4)) := by
  constructor
  · have hle : ¬ s.timeToLive bid ≤ 0 := by omega
    simp [tick, ht, hle]
  · simp only [logTimeoutWarning, Bool.or_eq_true, beq_iff_eq, decide_eq_true_eq]
    omega

/-- Witness for C9: on the concrete one-browser state with 30 seconds
remaining, one tick decrements to 29 and a warning is emitted (30 is a
multiple of 10). -/
theorem tick_warning_and_decrement_witness :
    (tick exOne 0).timeToLive 0 = 29 ∧ logTimeoutWarning (exOne.timeToLive 0) = true := by
  have h := tick_warning_and_decrement exOne 0 (by decide) (by decide)
  exact ⟨by rw [h.1]; decide, h.2.mpr (Or.inl (by decide))⟩

/-- C3 counterexample: on the concrete one-browser state, the explicit
destroy path performs `close()` and nulls the handle before it cancels the
countdown timer — cancelling the timer is its last mutating step, not its
first. -/
theorem destroy_cancel_not_first_cx :
    destroyBrowserEvents exOne 0 =
      [MutStep.releaseResource, MutStep.removeHandle, MutStep.cancelTimer] ∧
    (destroyBrowserEvents exOne 0).head? ≠ some MutStep.cancelTimer := by
  decide

/-- C3 (amended): on the TTL-expiry path (`handleBrowserTimeout`),
cancelling the countdown timer is the first mutating step; on the explicit
destroy path (`destroyBrowser`), the resource is released and the handle
removed first, and the timer is cancelled last. -/
theorem teardown_event_order (s : ManagerState) (bid : Nat)
    (hv : isValidBrowserId s bid = true) :
    (handleBrowserTimeoutEvents s bid).head? = some MutStep.cancelTimer ∧
    destroyBrowserEvents s bid =
      [MutStep.releaseResource, MutStep.removeHandle, MutStep.cancelTimer] ∧
    (destroyBrowserEvents s bid).getLast? = some MutStep.cancelTimer := by
  refine ⟨rfl, ?_, ?_⟩ <;> simp [destroyBrowserEvents, hv]

/-- Witness for C3 (amended): applying the theorem to the concrete
one-browser state. -/
theorem teardown_event_order_witness :
    (handleBrowserTimeoutEvents exOne 0).head? = some MutStep.cancelTimer ∧
    destroyBrowserEvents exOne 0 =
      [MutStep.releaseResource, MutStep.removeHandle, MutStep.cancelTimer] ∧
    (destroyBrowserEvents exOne 0).getLast? = some MutStep.cancelTimer :=
  teardown_event_order exOne 0 (by decide)

/-- C10: `subscribeTTL` is observation-only — the call itself, each firing
of the subscription interval, and the returned unsubscribe closure all
leave the manager state (handles, remaining TTLs, countdown timers)
unchanged; by contrast, `createPage` (borrow) on a live connected id
resets the remaining TTL to the configured default. -/
theorem subscribeTTL_frame (cfg : PuppetManagerOptions) (s : ManagerState)
    (bid : Nat) (a : Bool) :
    (subscribeTTL s bid).1 = s ∧
    (subStep s bid a).1 = s ∧
    (unsubscribeStep s a).1 = s ∧
    (0 ≤ cfg.defaultTimeout.getD Constants.DEFAULT_TTL_SECONDS →
      isValidBrowserId s bid = true →
      (subscribeTTL s bid).1.timeToLive bid = s.timeToLive bid ∧
      (createPage cfg s bid true true).1.timeToLive bid =
        cfg.defaultTimeout.getD Constants.DEFAULT_TTL_SECONDS) := by
  refine ⟨?_, ?_, rfl, ?_⟩
  · unfold subscribeTTL; split <;> rfl
  · unfold subStep
    split
    · split <;> rfl
    · rfl
  · intro hd hv
    constructor
    · unfold subscribeTTL; split <;> rfl
    · have h2 := timeoutCloser_of_valid s
        (cfg.defaultTimeout.getD Constants.DEFAULT_TTL_SECONDS) bid hv hd
      simp [createPage, hv, refreshTTL, h2]

/-- Witness for C10: applying the theorem to the concrete one-browser
state with no configured default timeout. -/
theorem subscribeTTL_frame_witness :
    (subscribeTTL exOne 0).1 = exOne ∧
    (createPage cfgNone exOne 0 true true).1.timeToLive 0 =
      cfgNone.defaultTimeout.getD Constants.DEFAULT_TTL_SECONDS := by
  have h := subscribeTTL_frame cfgNone exOne 0 true
  exact ⟨h.1, (h.2.2.2 (by decide) (by decide)).2⟩

theorem tick_decrement (s : ManagerState) (bid : Nat)
    (ht : s.timerActive bid = true) (hpos : 0 < s.timeToLive bid) :
    tick s bid =
      { s with timeToLive := upd s.timeToLive bid (s.timeToLive bid - 1) } := by
  have hle : ¬ s.timeToLive bid ≤ 0 := by omega
  simp [tick, ht, hle]

theorem tick_expire (s : ManagerState) (bid : Nat)
    (ht : s.timerActive bid = true) (hz : s.timeToLive bid ≤ 0) :
    tick s bid = handleBrowserTimeout s bid := by
  simp [tick, ht, hz]

theorem tickIter_live (s : ManagerState) (bid : Nat) (T : Nat)
    (hlen : bid < s.len) (hb : s.browsers bid = true)
    (ht : s.timerActive bid = true) (httl : s.timeToLive bid = (T : Int)) :
    ∀ k, k ≤ T →
      bid < (tickIter s bid k).len ∧
      (tickIter s bid k).browsers bid = true ∧
      (tickIter s bid k).timerActive bid = true ∧
      (tickIter s bid k).timeToLive bid = (T : Int) - (k : Int) := by
  intro k
  induction k with
  | zero =>
    intro _
    refine ⟨hlen, hb, ht, ?_⟩
    simp [tickIter, httl]
  | succ k ih =>
    intro hk
    obtain ⟨h1, h2, h3, h4⟩ := ih (Nat.le_of_succ_le hk)
    have hpos : 0 < (tickIter s bid k).timeToLive bid := by
      rw [h4]
      have : (k : Int) < (T : Int) := by exact_mod_cast hk
      omega
    have hd := tick_decrement (tickIter s bid k) bid h3 hpos
    refine ⟨?_, ?_, ?_, ?_⟩
    · simpa [tickIter, hd] using h1
    · simpa [tickIter, hd] using h2
    · simpa [tickIter, hd] using h3
    · have : (tickIter s bid (k + 1)).timeToLive bid =
          (tickIter s bid k).timeToLive bid - 1 := by
        simp [tickIter, hd]
      rw [this, h4]
      push_cast
      ring

/-- C1: a resource whose countdown starts at TTL `T` (and is never
refreshed) stays live for exactly `T + 1` ticks — at each of the first `T`
ticks the remaining TTL is positive and is only decremented, and the tick
after the TTL reaches 0 performs the teardown: the timer is stopped, the
handle removed, and the id no longer validates. -/
theorem createResource_lifetime (s : ManagerState) (bid : Nat) (T : Nat)
    (hlen : bid < s.len) (hb : s.browsers bid = true)
    (ht : s.timerActive bid = true) (httl : s.timeToLive bid = (T : Int)) :
    (∀ k, k ≤ T → isValidBrowserId (tickIter s bid k) bid = true ∧
      (tickIter s bid k).timeToLive bid = (T : Int) - (k : Int)) ∧
    (tickIter s bid (T + 1)).browsers bid = false ∧
    (tickIter s bid (T + 1)).timerActive bid = false ∧
    isValidBrowserId (tickIter s bid (T + 1)) bid = false := by
  have hmain := tickIter_live s bid T hlen hb ht httl
  constructor
  · intro k hk
    obtain ⟨h1, h2, _, h4⟩ := hmain k hk
    exact ⟨(isValid_iff _ _).mpr ⟨h1, h2⟩, h4⟩
  · obtain ⟨h1, h2, h3, h4⟩ := hmain T le_rfl
    have hz : (tickIter s bid T).timeToLive bid ≤ 0 := by rw [h4]; omega
    have hstep : tickIter s bid (T + 1) =
        handleBrowserTimeout (tickIter s bid T) bid := by
      simp [tickIter, tick_expire (tickIter s bid T) bid h3 hz]
    rw [hstep]
    refine ⟨?_, ?_, ?_⟩ <;> simp [handleBrowserTimeout, h2, isValidBrowserId]

/-- Witness for C1: the concrete browser with TTL 2 is still valid after 2
ticks and torn down at the third tick (matching the spec scenario
`defaultTimeout = 2`, invalid after 3 time units). -/
theorem createResource_lifetime_witness :
    isValidBrowserId (tickIter exTwo 0 2) 0 = true ∧
    (tickIter exTwo 0 3).browsers 0 = false ∧
    isValidBrowserId (tickIter exTwo 0 3) 0 = false := by
  have h := createResource_lifetime exTwo 0 2 (by decide) (by decide) (by decide)
    (by decide)
  exact ⟨(h.1 2 (by decide)).1, h.2.1, h.2.2.2⟩

theorem handleBrowserTimeout_len (s : ManagerState) (bid : Nat) :
    (handleBrowserTimeout s bid).len = s.len := by
  cases h : s.browsers bid <;> simp [handleBrowserTimeout, h]

theorem timeoutCloser_len (s : ManagerState) (sec : Int) (bid : Nat) :
    (timeoutCloser s sec bid).len = s.len := by
  unfold timeoutCloser
  split <;> rfl

theorem tick_len (s : ManagerState) (bid : Nat) : (tick s bid).len = s.len := by
  unfold tick
  split
  · split
    · exact handleBrowserTimeout_len s bid
    · rfl
  · rfl

theorem createBrowser_len (cfg : PuppetManagerOptions) (s : ManagerState) :
    ((createBrowser cfg s).1).len = s.len + 1 := by
  simp [createBrowser, refreshTTL, timeoutCloser_len]

theorem destroyBrowser_len (s : ManagerState) (bid : Nat) :
    ((destroyBrowser s bid).1).len = s.len := by
  unfold destroyBrowser
  split <;> rfl

theorem createPage_len (cfg : PuppetManagerOptions) (s : ManagerState) (bid : Nat)
    (c ok : Bool) : ((createPage cfg s bid c ok).1).len = s.len := by
  unfold createPage
  split
  · rfl
  · split
    · rfl
    · split <;> simp [refreshTTL, timeoutCloser_len]

theorem exec_len_mono (cfg : PuppetManagerOptions) (s : ManagerState) (op : Op)
    (hop : op ≠ Op.cleanupOp) : s.len ≤ (exec cfg s op).len := by
  cases op with
  | create => simp only [exec, createBrowser_len]; omega
  | destroy bid => simp [exec, destroyBrowser_len]
  | refreshOp bid t => simp [exec, refreshTTL, timeoutCloser_len]
  | page bid c ok => simp [exec, createPage_len]
  | tickOp bid => simp [exec, tick_len]
  | cleanupOp => exact absurd rfl hop

theorem createdIds_bound (cfg : PuppetManagerOptions) :
    ∀ (ops : List Op) (s : ManagerState), Op.cleanupOp ∉ ops →
      (∀ x ∈ createdIds cfg s ops, s.len ≤ x) ∧
      List.Pairwise (· < ·) (createdIds cfg s ops) := by
  intro ops
  induction ops with
  | nil =>
    intro s _
    simp [createdIds]
  | cons op ops ih =>
    intro s hmem
    have hop : op ≠ Op.cleanupOp := fun h => hmem (by simp [h])
    have hops : Op.cleanupOp ∉ ops := fun h => hmem (List.mem_cons_of_mem _ h)
    obtain ⟨ihb, ihp⟩ := ih (exec cfg s op) hops
    by_cases hc : op = Op.create
    · subst hc
      have hlen : (exec cfg s Op.create).len = s.len + 1 := by
        simp [exec, createBrowser_len]
      have hred : createdIds cfg s (Op.create :: ops) =
          s.len :: createdIds cfg (exec cfg s Op.create) ops := by
        simp [createdIds]
      rw [hred]
      constructor
      · intro x hx
        rcases List.mem_cons.mp hx with hx | hx
        · omega
        · have := ihb x hx; omega
      · refine List.pairwise_cons.mpr ⟨?_, ihp⟩
        intro b hb
        have := ihb b hb
        omega
    · have hred : createdIds cfg s (op :: ops) =
          createdIds cfg (exec cfg s op) ops := by
        simp [createdIds, hc]
      have hlen := exec_len_mono cfg s op hop
      rw [hred]
      exact ⟨fun x hx => le_trans hlen (ihb x hx), ihp⟩

/-- C4 counterexample: create (id 0), then bulk `cleanup`, then create
again — the second creation returns id 0 as well, so an id is reassigned
after its original resource was removed through the bulk-cleanup path. -/
theorem id_reuse_after_cleanup_cx :
    createdIds cfgNone emptyState [Op.create, Op.cleanupOp, Op.create] = [0, 0] ∧
    ¬ List.Pairwise (fun a b => a ≠ b)
      (createdIds cfgNone emptyState [Op.create, Op.cleanupOp, Op.create]) := by
  decide

/-- C4 (amended): in any operation sequence that never calls the bulk
`cleanup`, the ids returned by successive `createBrowser` calls are
strictly increasing, hence never reused (explicit `destroyBrowser` nulls a
slot without shrinking the array); `cleanup` resets the array, after which
id numbering restarts at 0 and previously assigned ids are reused. -/
theorem createdIds_strictly_mono (cfg : PuppetManagerOptions) (s : ManagerState)
    (ops : List Op) (h : Op.cleanupOp ∉ ops) :
    List.Pairwise (· < ·) (createdIds cfg s ops) :=
  (createdIds_bound cfg ops s h).2

/-- Witness for C4 (amended): create, destroy id 0, create again — the ids
handed out are 0 then 1, strictly increasing. -/
theorem createdIds_strictly_mono_witness :
    List.Pairwise (· < ·)
      (createdIds cfgNone emptyState [Op.create, Op.destroy 0, Op.create]) :=
  createdIds_strictly_mono cfgNone emptyState [Op.create, Op.destroy 0, Op.create]
    (by decide)

theorem upd_false_at (f : Nat → Bool) (j bid : Nat) (h : f bid = false) :
    upd f j false bid = false := by
  by_cases hb : bid = j
  · subst hb; simp
  · rw [upd_other _ _ _ _ hb]; exact h

theorem timeoutCloser_browsers (s : ManagerState) (sec : Int) (bid : Nat) :
    (timeoutCloser s sec bid).browsers = s.browsers := by
  unfold timeoutCloser
  split <;> rfl

theorem handleBrowserTimeout_browsers_false (s : ManagerState) (j bid : Nat)
    (h : s.browsers bid = false) :
    (handleBrowserTimeout s j).browsers bid = false := by
  cases hj : s.browsers j
  · simpa [handleBrowserTimeout, hj] using h
  · simp [handleBrowserTimeout, hj]
    exact upd_false_at _ _ _ h

theorem tick_browsers_false (s : ManagerState) (j bid : Nat)
    (h : s.browsers bid = false) : (tick s j).browsers bid = false := by
  unfold tick
  split
  · split
    · exact handleBrowserTimeout_browsers_false s j bid h
    · exact h
  · exact h

theorem exec_dead (cfg : PuppetManagerOptions) (s : ManagerState) (bid : Nat)
    (op : Op) (hop : op ≠ Op.cleanupOp) (hlen : bid < s.len)
    (hb : s.browsers bid = false) :
    bid < (exec cfg s op).len ∧ (exec cfg s op).browsers bid = false := by
  refine ⟨lt_of_lt_of_le hlen (exec_len_mono cfg s op hop), ?_⟩
  cases op with
  | create =>
    have hbr : ((createBrowser cfg s).1).browsers = upd s.browsers s.len true := by
      simp [createBrowser, refreshTTL, timeoutCloser_browsers]
    have hne : bid ≠ s.len := Nat.ne_of_lt hlen
    simp only [exec, hbr]
    rw [upd_other _ _ _ _ hne]
    exact hb
  | destroy j =>
    simp only [exec]
    unfold destroyBrowser
    split
    · exact hb
    · exact upd_false_at _ _ _ hb
  | refreshOp j t =>
    simp only [exec, refreshTTL]
    rw [timeoutCloser_browsers]
    exact hb
  | page j c ok =>
    simp only [exec]
    unfold createPage
    split
    · exact hb
    · split
      · exact upd_false_at _ _ _ hb
      · split <;> (simp only [refreshTTL]; rw [timeoutCloser_browsers]; exact hb)
  | tickOp j =>
    simp only [exec]
    exact tick_browsers_false s j bid hb
  | cleanupOp => exact absurd rfl hop

theorem execAll_dead (cfg : PuppetManagerOptions) :
    ∀ (ops : List Op) (s : ManagerState) (bid : Nat), Op.cleanupOp ∉ ops →
      bid < s.len → s.browsers bid = false →
      bid < (execAll cfg s ops).len ∧ (execAll cfg s ops).browsers bid = false := by
  intro ops
  induction ops with
  | nil =>
    intro s bid _ h1 h2
    exact ⟨h1, h2⟩
  | cons op ops ih =>
    intro s bid hmem h1 h2
    have hop : op ≠ Op.cleanupOp := fun h => hmem (by simp [h])
    have hops : Op.cleanupOp ∉ ops := fun h => hmem (List.mem_cons_of_mem _ h)
    obtain ⟨g1, g2⟩ := exec_dead cfg s bid op hop h1 h2
    simpa [execAll] using ih (exec cfg s op) bid hops g1 g2

/-- C7 counterexample: on the concrete one-browser state, `createPage`
against a disconnected browser removes the handle and throws — but after a
subsequent bulk `cleanup` followed by `createBrowser`, the very same id 0
is handed out again and validates as live, so the id is not "never again
validated as live by any subsequent operation". -/
theorem disconnected_id_revalidated_cx :
    (createPage cfgNone exOne 0 false true).2 = some PMError.disconnected ∧
    isValidBrowserId ((createPage cfgNone exOne 0 false true).1) 0 = false ∧
    (createBrowser cfgNone (cleanup ((createPage cfgNone exOne 0 false true).1))).2 = 0 ∧
    isValidBrowserId
      ((createBrowser cfgNone (cleanup ((createPage cfgNone exOne 0 false true).1))).1)
      0 = true := by
  decide

/-- C7 (amended): `createPage` on a live id whose browser reports
`connected = false` throws the disconnection error and removes the handle
as a side effect; the id then fails validation in every subsequent
operation sequence that does not call the bulk `cleanup` (after `cleanup`,
`createBrowser` restarts id numbering and may recycle the id for a new
resource). -/
theorem createPage_disconnected_removes (cfg : PuppetManagerOptions)
    (s : ManagerState) (bid : Nat) (ok : Bool)
    (hv : isValidBrowserId s bid = true) :
    (createPage cfg s bid false ok).2 = some PMError.disconnected ∧
    ((createPage cfg s bid false ok).1).browsers bid = false ∧
    isValidBrowserId ((createPage cfg s bid false ok).1) bid = false ∧
    (∀ ops, Op.cleanupOp ∉ ops →
      isValidBrowserId (execAll cfg ((createPage cfg s bid false ok).1) ops) bid
        = false) := by
  have hred : createPage cfg s bid false ok =
      ({ s with browsers := upd s.browsers bid false }, some PMError.disconnected) := by
    simp [createPage, hv]
  rw [hred]
  refine ⟨rfl, by simp, by simp [isValidBrowserId], ?_⟩
  intro ops hops
  have hlen : bid < s.len := ((isValid_iff s bid).mp hv).1
  have hd := execAll_dead cfg ops { s with browsers := upd s.browsers bid false }
    bid hops hlen (by simp)
  simp [isValidBrowserId, hd.2]

/-- Witness for C7 (amended): the disconnected borrow on the concrete
one-browser state, followed by a further create, still leaves id 0
invalid. -/
theorem createPage_disconnected_removes_witness :
    (createPage cfgNone exOne 0 false true).2 = some PMError.disconnected ∧
    isValidBrowserId
      (execAll cfgNone ((createPage cfgNone exOne 0 false true).1) [Op.create]) 0
      = false := by
  have h := createPage_disconnected_removes cfgNone exOne 0 true (by decide)
  exact ⟨h.1, h.2.2.2 [Op.create] (by decide)⟩

theorem countdownFrom_length : ∀ T : Nat, (countdownFrom T).length = T := by
  intro T
  induction T with
  | zero => rfl
  | succ T ih => simp [countdownFrom, ih]

theorem countdownFrom_mem_lt : ∀ (T : Nat) (x : Int),
    x ∈ countdownFrom T → x < (T : Int) := by
  intro T
  induction T with
  | zero =>
    intro x hx
    simp [countdownFrom] at hx
  | succ T ih =>
    intro x hx
    simp only [countdownFrom, List.mem_cons] at hx
    rcases hx with h | h
    · subst h; push_cast; omega
    · have := ih x h; push_cast; omega

theorem countdownFrom_pairwise (T : Nat) :
    List.Pairwise (fun a b : Int => b < a) (countdownFrom T) := by
  induction T with
  | zero => simp [countdownFrom]
  | succ T ih =>
    simp only [countdownFrom]
    refine List.pairwise_cons.mpr ⟨?_, ih⟩
    intro b hb
    exact countdownFrom_mem_lt T b hb

theorem runObs_dead : ∀ (n : Nat) (w : World),
    w.mgr.browsers w.subBid = false → runObs w n = [] := by
  intro n
  induction n with
  | zero => intro w _; rfl
  | succ n ih =>
    intro w hb
    have hb1 : (tick w.mgr w.subBid).browsers w.subBid = false :=
      tick_browsers_false _ _ _ hb
    have hro : schedRound w = (⟨tick w.mgr w.subBid, w.subBid, false⟩, none) := by
      cases ha : w.subActive <;> simp [schedRound, subStep, ha, hb1]
    simp only [runObs, hro]
    simpa using ih ⟨tick w.mgr w.subBid, w.subBid, false⟩ hb1

theorem runObs_live : ∀ (n : Nat) (T : Nat) (w : World),
    w.mgr.browsers w.subBid = true → w.mgr.timerActive w.subBid = true →
    w.mgr.timeToLive w.subBid = (T : Int) → w.subActive = true →
    runObs w n = (countdownFrom T).take n := by
  intro n
  induction n with
  | zero =>
    intro T w _ _ _ _
    rfl
  | succ n ih =>
    intro T w hb ht httl ha
    cases T with
    | zero =>
      have hz : w.mgr.timeToLive w.subBid ≤ 0 := by rw [httl]; simp
      have he := tick_expire w.mgr w.subBid ht hz
      have hbf : (tick w.mgr w.subBid).browsers w.subBid = false := by
        rw [he]; simp [handleBrowserTimeout, hb]
      have hro : schedRound w = (⟨tick w.mgr w.subBid, w.subBid, false⟩, none) := by
        simp [schedRound, subStep, ha, hbf]
      simp only [runObs, hro]
      simpa [countdownFrom] using
        runObs_dead n ⟨tick w.mgr w.subBid, w.subBid, false⟩ hbf
    | succ T =>
      have hpos : 0 < w.mgr.timeToLive w.subBid := by
        rw [httl]; push_cast; omega
      have hd := tick_decrement w.mgr w.subBid ht hpos
      have hb1 : (tick w.mgr w.subBid).browsers w.subBid = true := by
        rw [hd]; exact hb
      have ht1 : (tick w.mgr w.subBid).timerActive w.subBid = true := by
        rw [hd]; exact ht
      have httl1 : (tick w.mgr w.subBid).timeToLive w.subBid = (T : Int) := by
        rw [hd]
        simp only [upd_same]
        rw [httl]
        push_cast
        ring
      have hro : schedRound w =
          (⟨tick w.mgr w.subBid, w.subBid, true⟩,
            some ((tick w.mgr w.subBid).timeToLive w.subBid)) := by
        simp [schedRound, subStep, ha, hb1]
      have ihw := ih T ⟨tick w.mgr w.subBid, w.subBid, true⟩ hb1 ht1 httl1
      simp only [runObs, hro, httl1]
      simp [countdownFrom, ihw]

/-- C8: with a live subscription on a resource whose countdown starts at
TTL `T` and is then left to expire, the callback receives the strictly
decreasing integer observations `T-1, T-2, ..., 0` (any run prefix is
strictly decreasing), no further observation is delivered once the
resource is torn down at the expiry tick, and on any world whose resource
is already gone (torn down by any path) the callback never fires at all. -/
theorem subscribeTTL_trace (w : World) (T : Nat)
    (hb : w.mgr.browsers w.subBid = true)
    (ht : w.mgr.timerActive w.subBid = true)
    (httl : w.mgr.timeToLive w.subBid = (T : Int)) (ha : w.subActive = true) :
    (∀ n, List.Pairwise (fun a b : Int => b < a) (runObs w n)) ∧
    (∀ n, T ≤ n → runObs w n = runObs w T) ∧
    (∀ (w' : World) (n : Nat), w'.mgr.browsers w'.subBid = false →
      runObs w' n = []) := by
  have hrun : ∀ n, runObs w n = (countdownFrom T).take n :=
    fun n => runObs_live n T w hb ht httl ha
  refine ⟨?_, ?_, ?_⟩
  · intro n
    rw [hrun n]
    exact (countdownFrom_pairwise T).sublist (List.take_sublist n _)
  · intro n hn
    have hl := countdownFrom_length T
    rw [hrun n, hrun T, List.take_of_length_le (by omega),
      List.take_of_length_le (by omega)]
  · intro w' n hdead
    exact runObs_dead n w' hdead

/-- Witness for C8: on the concrete world with TTL 2 and a live
subscription, every run prefix is strictly decreasing and runs of length
at least 2 deliver no further observations. -/
theorem subscribeTTL_trace_witness :
    List.Pairwise (fun a b : Int => b < a) (runObs exWorld 5) ∧
    runObs exWorld 5 = runObs exWorld 2 := by
  have h := subscribeTTL_trace exWorld 2 (by decide) (by decide) (by decide) rfl
  exact ⟨h.1 5, h.2.1 5 (by decide)⟩
